import Mathlib

/-!
Shallow embedding of the host application loop of `src/main.js` from the
3d-Volumetric-Fluid-Simulator repository.

The host loop (function `main` / nested `frame` in `main.js`) keeps a set of
loop-scoped mutable variables (pause flag, wave phase, domain box size, ...)
and, once per animation frame, issues a fixed sequence of calls: a camera
update, an optional `simulator.changeBoxSize`, a render-uniform write, the
creation of one command encoder, an optional `simulator.execute`, a
`renderer.execute`, and one `device.queue.submit`.

We model this state as the structure `HostState` and the body of `frame` as a
pure function from the current state (plus the `requestAnimationFrame`
timestamp) to the successor state together with the ordered list of external
calls (`Event`s) issued during that frame.  `Math.sin` is an external library
function and is passed in as an uninterpreted parameter `sinFn`; all JS
numbers are modelled as rationals.  Purely diagnostic code in `frame`
(`stats.begin/end`, the `performance.now()` CPU-timing averages and the
benchmark overlay text) touches no simulation-visible state and emits no
device commands, so it is not part of the model.
-/

/-- Module constant `BOX_WIDTH` of `main.js`. -/
def BOX_WIDTH : ℚ := 100

/-- Module constant `BOX_HEIGHT` of `main.js`. -/
def BOX_HEIGHT : ℚ := 100

/-- Module constant `BOX_DEPTH` of `main.js`. -/
def BOX_DEPTH : ℚ := 100

/-- A 3-component vector of JS numbers, as used for the box sizes. -/
structure Vec3 where
  x : ℚ
  y : ℚ
  z : ℚ
  deriving DecidableEq, Repr

/-- The value of `initBoxSize` in `main` (`[BOX_WIDTH, BOX_HEIGHT, BOX_DEPTH]`);
it is assigned once and never written afterwards. -/
def initBoxSize : Vec3 := ⟨BOX_WIDTH, BOX_HEIGHT, BOX_DEPTH⟩

/-- The loop-scoped mutable variables of `main` that the per-frame code reads
or writes.  `boxWidthFactor` models the JS variable holding the clamped depth
ratio (named after the width in the source), `errorLog` the text content of
the `error-reason` DOM element. -/
structure HostState where
  isPaused : Bool
  waveEnabled : Bool
  waveTime : ℚ
  waveAmplitude : ℚ
  boxWidthFactor : ℚ
  realBoxSize : Vec3
  prevBoxSize : Vec3
  uniformsNeedUpdate : Bool
  lastTime : ℚ
  errorLog : String
  deriving DecidableEq, Repr

/-- One externally visible call issued by the host during startup or during a
frame.  `storageLoad` is a possible action (reading simulation state from
persistent storage) that the source never performs; it is included so that
its absence is expressible. -/
inductive Event where
  | cameraUpdate (dt : ℚ)
  | changeBoxSize (v : Vec3)
  | writeBoxUniform (v : Vec3)
  | createEncoder
  | solverExecute
  | rendererExecute
  | queueSubmit
  | resetCall (count : ℕ) (box : Vec3)
  | storageLoad
  deriving DecidableEq, Repr

/-- The moving-wall block of `frame` (`main.js` lines 262-273): when the
simulation is not paused and the wall is enabled, advance the wave phase by
0.02, compute the clamped depth ratio, write the new depth into
`realBoxSize[2]` and call `simulator.changeBoxSize`. -/
def waveUpdate (sinFn : ℚ → ℚ) (s : HostState) : HostState × List Event :=
  if !s.isPaused && s.waveEnabled then
    let wt := s.waveTime + 0.02
    let r := max 0.2 (min 2.0 (1 + sinFn wt * s.waveAmplitude))
    let newBox : Vec3 := ⟨s.realBoxSize.x, s.realBoxSize.y, initBoxSize.z * r⟩
    ({ s with waveTime := wt, boxWidthFactor := r, realBoxSize := newBox,
              uniformsNeedUpdate := true },
     [Event.changeBoxSize newBox])
  else (s, [])

/-- The body of `frame` (`main.js` lines 253-309): camera update, optional
moving-wall update, unconditional render-uniform write, one command encoder,
solver commands only when unpaused, renderer commands, one queue submit.
Returns the successor host state and the ordered call trace of the frame. -/
def frame (sinFn : ℚ → ℚ) (currentTime : ℚ) (s : HostState) : HostState × List Event :=
  let deltaTime := (currentTime - s.lastTime) / 1000
  let s1 : HostState := { s with lastTime := currentTime }
  let w := waveUpdate sinFn s1
  let s2 := w.1
  let s3 : HostState := { s2 with
    prevBoxSize := if s2.realBoxSize ≠ s2.prevBoxSize then s2.realBoxSize else s2.prevBoxSize,
    uniformsNeedUpdate := false }
  (s3,
    Event.cameraUpdate deltaTime :: w.2 ++
    [Event.writeBoxUniform s2.realBoxSize, Event.createEncoder] ++
    (if s2.isPaused then [] else [Event.solverExecute]) ++
    [Event.rendererExecute, Event.queueSubmit])

/-- Iterated frames: `run sinFn times s` executes one frame per timestamp in
`times`, threading the host state and concatenating the frame traces in
order (the `requestAnimationFrame` chain at `main.js` lines 308 and 311). -/
def run (sinFn : ℚ → ℚ) : List ℚ → HostState → HostState × List Event
  | [], s => (s, [])
  | t :: ts, s =>
    let f := frame sinFn t s
    let r := run sinFn ts f.1
    (r.1, f.2 ++ r.2)

/-- The host state right after `main`'s setup code (`main.js` lines 117-237),
before the first `requestAnimationFrame(frame)`.  `t0` is the
`performance.now()` value stored into `lastTime`. -/
def mainInit (t0 : ℚ) : HostState :=
  { isPaused := false
    waveEnabled := true
    waveTime := 0
    waveAmplitude := 0.40
    boxWidthFactor := 1.0
    realBoxSize := initBoxSize
    prevBoxSize := initBoxSize
    uniformsNeedUpdate := true
    lastTime := t0
    errorLog := "" }

/-- The session-level call trace: `main` calls
`simulator.reset(currentParticleCount, initBoxSize)` with
`currentParticleCount = 400000` (`main.js` lines 228-231) and only then starts
the frame loop.  No call reading persistent storage exists in the source. -/
def sessionEvents (sinFn : ℚ → ℚ) (t0 : ℚ) (times : List ℚ) : List Event :=
  Event.resetCall 400000 initBoxSize :: (run sinFn times (mainInit t0)).2

/-- The `device.lost` continuation (`main.js` lines 223-226): format the loss
reason.  The absent/falsy reason maps to `'unknown reason'`. -/
def lostMessage : Option String → String
  | some r => "reason: " ++ r
  | none => "unknown reason"

/-- Effect of the `device.lost` handler on the host: it writes the formatted
reason into the `error-reason` element and changes nothing else. -/
def handleDeviceLost (info : Option String) (s : HostState) : HostState :=
  { s with errorLog := lostMessage info }

/-- Arguments of a `simulator.addSphere` call, in source order
(`addSphere(x, y, z, radius, count)`). -/
structure AddSphereCall where
  x : ℚ
  y : ℚ
  z : ℚ
  radius : ℚ
  count : ℕ
  deriving DecidableEq, Repr

/-- `addMoreParticles` (`main.js` lines 197-205): builds the `addSphere` call
from the module constants only.  It closes over the host state but reads none
of it, which the explicit unused parameter makes checkable. -/
def addMoreParticles (_s : HostState) : AddSphereCall :=
  { x := BOX_WIDTH / 2
    y := BOX_HEIGHT / 2
    z := BOX_DEPTH / 2
    radius := 5
    count := 10000 }

/-- The GUI button action `'Add 10,000 Particles'` (`main.js` lines 141-143):
it invokes `addMoreParticles`. -/
def guiAddParticlesClick (s : HostState) : List AddSphereCall :=
  [addMoreParticles s]

/-- JS `String.prototype.toLowerCase` on the key strings the handler sees
(ASCII key names), modelled as a per-character lowercase map. -/
def jsToLower (s : String) : String :=
  ⟨s.data.map Char.toLower⟩

/-- The keydown handler at `main.js` lines 215-219: on a key whose lowercase
form is `g`, invoke `addMoreParticles`. -/
def keydownHandlerG (key : String) (s : HostState) : List AddSphereCall :=
  if jsToLower key = "g" then [addMoreParticles s] else []

/-- JS `Math.trunc`-style truncation toward zero of a finite number. -/
def jsTrunc (v : ℚ) : ℤ :=
  if 0 ≤ v then ⌊v⌋ else ⌈v⌉

/-- JS `ToInt32`: reduce modulo 2^32 into the signed 32-bit range. -/
def toInt32 (n : ℤ) : ℤ :=
  (n + 2 ^ 31) % 2 ^ 32 - 2 ^ 31

/-- The value `v|0` that the substeps slider callback passes to
`simulator.setSubsteps` (`main.js` lines 137-139): truncation toward zero
followed by 32-bit wrap. -/
def substepsArg (v : ℚ) : ℤ :=
  toInt32 (jsTrunc v)

/-- Number of `solverExecute` events in a trace. -/
def numSolverExecs : List Event → ℕ
  | [] => 0
  | Event.solverExecute :: rest => numSolverExecs rest + 1
  | _ :: rest => numSolverExecs rest

/-- Number of `rendererExecute` events in a trace. -/
def numRendererExecs : List Event → ℕ
  | [] => 0
  | Event.rendererExecute :: rest => numRendererExecs rest + 1
  | _ :: rest => numRendererExecs rest

/-- Number of `queueSubmit` events in a trace. -/
def numSubmits : List Event → ℕ
  | [] => 0
  | Event.queueSubmit :: rest => numSubmits rest + 1
  | _ :: rest => numSubmits rest

/-- Number of `createEncoder` events in a trace. -/
def numEncoders : List Event → ℕ
  | [] => 0
  | Event.createEncoder :: rest => numEncoders rest + 1
  | _ :: rest => numEncoders rest

/-- Number of `changeBoxSize` events in a trace. -/
def numChangeBoxCalls : List Event → ℕ
  | [] => 0
  | Event.changeBoxSize _ :: rest => numChangeBoxCalls rest + 1
  | _ :: rest => numChangeBoxCalls rest

/-- Number of `resetCall` events in a trace. -/
def numResets : List Event → ℕ
  | [] => 0
  | Event.resetCall _ _ :: rest => numResets rest + 1
  | _ :: rest => numResets rest

/-- Number of `storageLoad` events in a trace. -/
def numStorageLoads : List Event → ℕ
  | [] => 0
  | Event.storageLoad :: rest => numStorageLoads rest + 1
  | _ :: rest => numStorageLoads rest

/-- The arguments of the `changeBoxSize` calls of a trace, in order. -/
def changeBoxSizeCalls : List Event → List Vec3
  | [] => []
  | Event.changeBoxSize v :: rest => v :: changeBoxSizeCalls rest
  | _ :: rest => changeBoxSizeCalls rest

/-- Whether a trace contains a `solverExecute` event. -/
def hasSolverExec : List Event → Bool
  | [] => false
  | Event.solverExecute :: _ => true
  | _ :: rest => hasSolverExec rest

/-- True when no `solverExecute` event occurs after any `rendererExecute`:
all solver commands of the trace precede all renderer commands. -/
def solverAllBeforeRenderer : List Event → Bool
  | [] => true
  | Event.rendererExecute :: rest => !hasSolverExec rest && solverAllBeforeRenderer rest
  | _ :: rest => solverAllBeforeRenderer rest

/-- Whether an event appends work to (or creates) the frame's command batch. -/
def isCmdEvent : Event → Bool
  | Event.createEncoder => true
  | Event.solverExecute => true
  | Event.rendererExecute => true
  | _ => false

/-- Whether a trace contains a command-batch event. -/
def hasCmdEvent : List Event → Bool
  | [] => false
  | e :: rest => isCmdEvent e || hasCmdEvent rest

/-- True when no command-batch event occurs after any `queueSubmit`: the
batch is complete before it is submitted. -/
def cmdsPrecedeSubmit : List Event → Bool
  | [] => true
  | Event.queueSubmit :: rest => !hasCmdEvent rest && cmdsPrecedeSubmit rest
  | _ :: rest => cmdsPrecedeSubmit rest

/-- True when no solver or renderer command occurs before the first
`createEncoder` of the trace. -/
def noExecBeforeEncoder : List Event → Bool
  | [] => true
  | Event.createEncoder :: _ => true
  | Event.solverExecute :: _ => false
  | Event.rendererExecute :: _ => false
  | _ :: rest => noExecBeforeEncoder rest

/-- True when every box size sent to `changeBoxSize` or written into the
render uniforms keeps width `BOX_WIDTH` and height `BOX_HEIGHT`. -/
def boxEventXYok (e : Event) : Bool :=
  match e with
  | Event.changeBoxSize v => decide (v.x = BOX_WIDTH ∧ v.y = BOX_HEIGHT)
  | Event.writeBoxUniform v => decide (v.x = BOX_WIDTH ∧ v.y = BOX_HEIGHT)
  | _ => true

/-- `boxEventXYok` holds of every event of the trace. -/
def allBoxXYFixed (l : List Event) : Bool :=
  l.all boxEventXYok

/-- C1: on every frame that is not paused and has the moving wall enabled,
the box size passed to `changeBoxSize` has depth
`BOX_DEPTH * clamp (1 + sin t * amplitude) [0.2, 2.0]` (with `t` the advanced
wave phase), and hence the depth lies between `0.2 * BOX_DEPTH` and
`2.0 * BOX_DEPTH`. -/
theorem c1_wave_depth_formula_and_clamp (sinFn : ℚ → ℚ) (tNow : ℚ) (s : HostState)
    (hp : s.isPaused = false) (hw : s.waveEnabled = true) :
    changeBoxSizeCalls (frame sinFn tNow s).2 =
      [⟨s.realBoxSize.x, s.realBoxSize.y,
        BOX_DEPTH * max 0.2 (min 2.0 (1 + sinFn (s.waveTime + 0.02) * s.waveAmplitude))⟩] ∧
    ∀ v ∈ changeBoxSizeCalls (frame sinFn tNow s).2,
      0.2 * BOX_DEPTH ≤ v.z ∧ v.z ≤ 2.0 * BOX_DEPTH := by
  have hlist : changeBoxSizeCalls (frame sinFn tNow s).2 =
      [⟨s.realBoxSize.x, s.realBoxSize.y,
        BOX_DEPTH * max 0.2 (min 2.0 (1 + sinFn (s.waveTime + 0.02) * s.waveAmplitude))⟩] := by
    simp [frame, waveUpdate, hp, hw, changeBoxSizeCalls, initBoxSize]
  refine ⟨hlist, ?_⟩
  intro v hv
  rw [hlist] at hv
  simp only [List.mem_singleton] at hv
  subst hv
  have h1 : (0.2 : ℚ) ≤ max 0.2 (min 2.0 (1 + sinFn (s.waveTime + 0.02) * s.waveAmplitude)) :=
    le_max_left _ _
  have h2 : max 0.2 (min 2.0 (1 + sinFn (s.waveTime + 0.02) * s.waveAmplitude)) ≤ 2.0 :=
    max_le (by norm_num) (min_le_left _ _)
  constructor
  · show (0.2 : ℚ) * BOX_DEPTH ≤ BOX_DEPTH * _
    rw [show BOX_DEPTH = (100 : ℚ) from rfl]
    linarith
  · show BOX_DEPTH * _ ≤ (2.0 : ℚ) * BOX_DEPTH
    rw [show BOX_DEPTH = (100 : ℚ) from rfl]
    linarith

/-- C2: in a paused frame, no `simulator.execute` call is added to the batch
while `renderer.execute` and the queue submit still happen; in an unpaused
frame both solver and renderer execute. -/
theorem c2_pause_gates_solver_only (sinFn : ℚ → ℚ) (tNow : ℚ) (s : HostState) :
    numSolverExecs (frame sinFn tNow s).2 = (if s.isPaused then 0 else 1) ∧
    numRendererExecs (frame sinFn tNow s).2 = 1 ∧
    numSubmits (frame sinFn tNow s).2 = 1 := by
  cases hp : s.isPaused <;> cases hw : s.waveEnabled <;>
    simp [frame, waveUpdate, hp, hw, numSolverExecs, numRendererExecs, numSubmits]

/-- C9: a paused frame leaves the box size untouched: `changeBoxSize` is not
called and all three components of `realBoxSize` keep their previous values. -/
theorem c9_pause_freezes_box (sinFn : ℚ → ℚ) (tNow : ℚ) (s : HostState)
    (hp : s.isPaused = true) :
    (frame sinFn tNow s).1.realBoxSize = s.realBoxSize ∧
    numChangeBoxCalls (frame sinFn tNow s).2 = 0 := by
  simp [frame, waveUpdate, hp, numChangeBoxCalls]

/-- C10: on an unpaused frame with the wall enabled, the wave phase advances
by exactly 0.02, whatever the frame timestamp; the measured delta time is
consumed only by the camera update at the head of the frame trace. -/
theorem c10_wave_phase_fixed_step (sinFn : ℚ → ℚ) (t1 t2 : ℚ) (s : HostState)
    (hp : s.isPaused = false) (hw : s.waveEnabled = true) :
    (frame sinFn t1 s).1.waveTime = s.waveTime + 0.02 ∧
    (frame sinFn t1 s).1.waveTime = (frame sinFn t2 s).1.waveTime ∧
    (frame sinFn t1 s).2.head? = some (Event.cameraUpdate ((t1 - s.lastTime) / 1000)) := by
  refine ⟨?_, ?_, ?_⟩ <;> simp [frame, waveUpdate, hp, hw]

/-- C1 witness: the first frame of a session, with the sine modelled as the
zero function, satisfies the hypotheses and the conclusion of
`c1_wave_depth_formula_and_clamp`. -/
theorem c1_wave_depth_witness :
    (mainInit 0).isPaused = false ∧ (mainInit 0).waveEnabled = true ∧
    (changeBoxSizeCalls (frame (fun _ => (0 : ℚ)) 0 (mainInit 0)).2 =
        [⟨(mainInit 0).realBoxSize.x, (mainInit 0).realBoxSize.y,
          BOX_DEPTH * max 0.2 (min 2.0 (1 + (0 : ℚ) * (mainInit 0).waveAmplitude))⟩] ∧
      ∀ v ∈ changeBoxSizeCalls (frame (fun _ => (0 : ℚ)) 0 (mainInit 0)).2,
        0.2 * BOX_DEPTH ≤ v.z ∧ v.z ≤ 2.0 * BOX_DEPTH) :=
  ⟨rfl, rfl, c1_wave_depth_formula_and_clamp (fun _ => 0) 0 (mainInit 0) rfl rfl⟩

/-- C9 witness: a concrete paused state satisfies the hypothesis and the
conclusion of `c9_pause_freezes_box`. -/
theorem c9_pause_freezes_box_witness :
    ({ mainInit 0 with isPaused := true } : HostState).isPaused = true ∧
    ((frame (fun _ => (0 : ℚ)) 0 { mainInit 0 with isPaused := true }).1.realBoxSize =
        ({ mainInit 0 with isPaused := true } : HostState).realBoxSize ∧
      numChangeBoxCalls (frame (fun _ => (0 : ℚ)) 0 { mainInit 0 with isPaused := true }).2 = 0) :=
  ⟨rfl, c9_pause_freezes_box (fun _ => 0) 0 { mainInit 0 with isPaused := true } rfl⟩

/-- C10 witness: the initial state is unpaused with the wall enabled, and the
conclusion of `c10_wave_phase_fixed_step` holds there for timestamps 0, 1. -/
theorem c10_wave_phase_fixed_step_witness :
    (mainInit 0).isPaused = false ∧ (mainInit 0).waveEnabled = true ∧
    ((frame (fun _ => (0 : ℚ)) 0 (mainInit 0)).1.waveTime = (mainInit 0).waveTime + 0.02 ∧
      (frame (fun _ => (0 : ℚ)) 0 (mainInit 0)).1.waveTime =
        (frame (fun _ => (0 : ℚ)) 1 (mainInit 0)).1.waveTime ∧
      (frame (fun _ => (0 : ℚ)) 0 (mainInit 0)).2.head? =
        some (Event.cameraUpdate ((0 - (mainInit 0).lastTime) / 1000))) :=
  ⟨rfl, rfl, c10_wave_phase_fixed_step (fun _ => 0) 0 1 (mainInit 0) rfl rfl⟩

/-- C3: every frame creates exactly one command encoder, all solver commands
precede all renderer commands, no command is appended before the encoder
exists or after the single queue submit, and the trace of a multi-frame run
is frame N's full trace followed by the later frames' traces. -/
theorem c3_single_batch_per_frame (sinFn : ℚ → ℚ) (tNow : ℚ) (s : HostState) (ts : List ℚ) :
    numEncoders (frame sinFn tNow s).2 = 1 ∧
    numSubmits (frame sinFn tNow s).2 = 1 ∧
    noExecBeforeEncoder (frame sinFn tNow s).2 = true ∧
    solverAllBeforeRenderer (frame sinFn tNow s).2 = true ∧
    cmdsPrecedeSubmit (frame sinFn tNow s).2 = true ∧
    (run sinFn (tNow :: ts) s).2 =
      (frame sinFn tNow s).2 ++ (run sinFn ts (frame sinFn tNow s).1).2 := by
  refine ⟨?_, ?_, ?_, ?_, ?_, ?_⟩ <;>
    cases hp : s.isPaused <;> cases hw : s.waveEnabled <;>
      simp [frame, waveUpdate, run, hp, hw, numEncoders, numSubmits, noExecBeforeEncoder,
        solverAllBeforeRenderer, cmdsPrecedeSubmit, hasSolverExec, hasCmdEvent, isCmdEvent]

/-- C5: both the GUI button and the `g` keyboard shortcut produce an
`addSphere` call with center (50, 50, 50), radius 5 and count 10000, whatever
the current host state (in particular, whatever the current domain depth). -/
theorem c5_inject_sphere_fixed_args (s : HostState) :
    addMoreParticles s = ⟨50, 50, 50, 5, 10000⟩ ∧
    guiAddParticlesClick s = [⟨50, 50, 50, 5, 10000⟩] ∧
    keydownHandlerG "g" s = [⟨50, 50, 50, 5, 10000⟩] ∧
    keydownHandlerG "G" s = [⟨50, 50, 50, 5, 10000⟩] := by
  have ha : addMoreParticles s = ⟨50, 50, 50, 5, 10000⟩ := by
    simp [addMoreParticles, BOX_WIDTH, BOX_HEIGHT, BOX_DEPTH]
    norm_num
  refine ⟨ha, ?_, ?_, ?_⟩ <;>
    simp [guiAddParticlesClick, keydownHandlerG, ha, show jsToLower "g" = "g" from by decide,
      show jsToLower "G" = "g" from by decide]

/-- C7: for any slider value in `[1, 4]`, the value `v|0` passed to
`setSubsteps` is the integer `⌊v⌋` and lies in `[1, 4]`; in particular it is
never below 1. -/
theorem c7_substeps_arg_in_range (v : ℚ) (h1 : 1 ≤ v) (h2 : v ≤ 4) :
    substepsArg v = ⌊v⌋ ∧ 1 ≤ substepsArg v ∧ substepsArg v ≤ 4 := by
  have h0 : (0 : ℚ) ≤ v := by linarith
  have hf1 : (1 : ℤ) ≤ ⌊v⌋ := by
    rw [Int.le_floor]
    exact_mod_cast h1
  have hf4 : ⌊v⌋ ≤ 4 := by
    have h := Int.floor_le_floor h2
    simpa using h
  have hj : jsTrunc v = ⌊v⌋ := by simp [jsTrunc, h0]
  have hpow31 : (2 : ℤ) ^ 31 = 2147483648 := by norm_num
  have hpow32 : (2 : ℤ) ^ 32 = 4294967296 := by norm_num
  have ht : toInt32 ⌊v⌋ = ⌊v⌋ := by
    simp only [toInt32, hpow31, hpow32]
    omega
  refine ⟨?_, ?_, ?_⟩ <;> simp [substepsArg, hj, ht] <;> omega

/-- C7 witness: the slider value 5/2 satisfies the range hypotheses, and the
conclusion of `c7_substeps_arg_in_range` holds there. -/
theorem c7_substeps_arg_witness :
    (1 : ℚ) ≤ 5 / 2 ∧ (5 : ℚ) / 2 ≤ 4 ∧
    (substepsArg (5 / 2) = ⌊(5 : ℚ) / 2⌋ ∧
      1 ≤ substepsArg (5 / 2) ∧ substepsArg (5 / 2) ≤ 4) :=
  ⟨by norm_num, by norm_num, c7_substeps_arg_in_range (5 / 2) (by norm_num) (by norm_num)⟩

/-- C4 counterexample: after the device-loss handler has run (here with
reason `destroyed`), the failure indicator shows the reason, yet the next
frame still submits a command batch — the host does not stop issuing frames,
contradicting the claim that no subsequent batch is submitted. -/
theorem c4_loss_counterexample :
    (handleDeviceLost (some "destroyed") (mainInit 0)).errorLog = "reason: destroyed" ∧
    numSubmits (frame (fun _ => (0 : ℚ)) 0 (handleDeviceLost (some "destroyed") (mainInit 0))).2
      = 1 := by
  constructor
  · rfl
  · norm_num [frame, waveUpdate, handleDeviceLost, mainInit, numSubmits, lostMessage]

/-- C4 amended: on device loss the host writes the formatted loss reason into
the static failure indicator, but the frame loop is unaffected: every later
frame still executes the renderer and submits its command batch (and, when
unpaused, still runs the solver). -/
theorem c4_loss_reported_frames_continue (info : Option String) (sinFn : ℚ → ℚ)
    (tNow : ℚ) (s : HostState) :
    (handleDeviceLost info s).errorLog = lostMessage info ∧
    numSubmits (frame sinFn tNow (handleDeviceLost info s)).2 = 1 ∧
    numRendererExecs (frame sinFn tNow (handleDeviceLost info s)).2 = 1 := by
  refine ⟨rfl, ?_, ?_⟩ <;>
    cases hp : s.isPaused <;> cases hw : s.waveEnabled <;>
      simp [frame, waveUpdate, handleDeviceLost, hp, hw, numSubmits, numRendererExecs]

/-- One frame preserves the width and height components of `realBoxSize` and
emits only box events that keep width `BOX_WIDTH` and height `BOX_HEIGHT`. -/
lemma frame_box_xy (sinFn : ℚ → ℚ) (tNow : ℚ) (s : HostState)
    (hx : s.realBoxSize.x = BOX_WIDTH) (hy : s.realBoxSize.y = BOX_HEIGHT) :
    (frame sinFn tNow s).1.realBoxSize.x = BOX_WIDTH ∧
    (frame sinFn tNow s).1.realBoxSize.y = BOX_HEIGHT ∧
    allBoxXYFixed (frame sinFn tNow s).2 = true := by
  cases hp : s.isPaused <;> cases hw : s.waveEnabled <;>
    simp [frame, waveUpdate, allBoxXYFixed, boxEventXYok, hp, hw, hx, hy]

/-- A run of frames preserves the width and height components of
`realBoxSize` and of every box event of its trace. -/
lemma run_box_xy (sinFn : ℚ → ℚ) (ts : List ℚ) (s : HostState)
    (hx : s.realBoxSize.x = BOX_WIDTH) (hy : s.realBoxSize.y = BOX_HEIGHT) :
    (run sinFn ts s).1.realBoxSize.x = BOX_WIDTH ∧
    (run sinFn ts s).1.realBoxSize.y = BOX_HEIGHT ∧
    allBoxXYFixed (run sinFn ts s).2 = true := by
  induction ts generalizing s with
  | nil => simp [run, allBoxXYFixed, hx, hy]
  | cons t ts ih =>
    obtain ⟨h1, h2, h3⟩ := frame_box_xy sinFn t s hx hy
    obtain ⟨g1, g2, g3⟩ := ih (frame sinFn t s).1 h1 h2
    have hsplit : run sinFn (t :: ts) s =
        ((run sinFn ts (frame sinFn t s).1).1,
          (frame sinFn t s).2 ++ (run sinFn ts (frame sinFn t s).1).2) := rfl
    rw [hsplit]
    refine ⟨g1, g2, ?_⟩
    simp only [allBoxXYFixed, List.all_append] at h3 g3 ⊢
    rw [h3, g3]
    rfl

/-- C6: starting from `main`'s initial state, across any number of frames the
width and height components of the box size stay 100 — both in the host
state and in every `changeBoxSize` / render-uniform write of the trace; only
the depth component ever changes. -/
theorem c6_box_width_height_constant (sinFn : ℚ → ℚ) (t0 : ℚ) (times : List ℚ) :
    (run sinFn times (mainInit t0)).1.realBoxSize.x = 100 ∧
    (run sinFn times (mainInit t0)).1.realBoxSize.y = 100 ∧
    allBoxXYFixed (run sinFn times (mainInit t0)).2 = true :=
  run_box_xy sinFn times (mainInit t0) rfl rfl

/-- Appending traces adds the `resetCall` counts. -/
lemma numResets_append (l1 l2 : List Event) :
    numResets (l1 ++ l2) = numResets l1 + numResets l2 := by
  induction l1 with
  | nil => simp [numResets]
  | cons e rest ih =>
    cases e <;> simp [numResets, ih]
    all_goals ring

/-- Appending traces adds the `storageLoad` counts. -/
lemma numStorageLoads_append (l1 l2 : List Event) :
    numStorageLoads (l1 ++ l2) = numStorageLoads l1 + numStorageLoads l2 := by
  induction l1 with
  | nil => simp [numStorageLoads]
  | cons e rest ih =>
    cases e <;> simp [numStorageLoads, ih]
    all_goals ring

/-- A frame trace contains no `resetCall` and no `storageLoad` event. -/
lemma frame_no_reset_no_storage (sinFn : ℚ → ℚ) (tNow : ℚ) (s : HostState) :
    numResets (frame sinFn tNow s).2 = 0 ∧
    numStorageLoads (frame sinFn tNow s).2 = 0 := by
  cases hp : s.isPaused <;> cases hw : s.waveEnabled <;>
    simp [frame, waveUpdate, hp, hw, numResets, numStorageLoads]

/-- A run trace contains no `resetCall` and no `storageLoad` event. -/
lemma run_no_reset_no_storage (sinFn : ℚ → ℚ) (ts : List ℚ) (s : HostState) :
    numResets (run sinFn ts s).2 = 0 ∧
    numStorageLoads (run sinFn ts s).2 = 0 := by
  induction ts generalizing s with
  | nil => simp [run, numResets, numStorageLoads]
  | cons t ts ih =>
    obtain ⟨h1, h2⟩ := frame_no_reset_no_storage sinFn t s
    obtain ⟨g1, g2⟩ := ih (frame sinFn t s).1
    have hsplit : run sinFn (t :: ts) s =
        ((run sinFn ts (frame sinFn t s).1).1,
          (frame sinFn t s).2 ++ (run sinFn ts (frame sinFn t s).1).2) := rfl
    rw [hsplit]
    constructor
    · rw [numResets_append, h1, g1]
    · rw [numStorageLoads_append, h2, g2]

/-- C8: the session trace starts with the single `reset(400000, [100,100,100])`
call — it precedes every frame event, in particular every encoder creation
and queue submit — and contains no read of persistent storage. -/
theorem c8_reset_once_no_persistence (sinFn : ℚ → ℚ) (t0 : ℚ) (times : List ℚ) :
    (sessionEvents sinFn t0 times).head? = some (Event.resetCall 400000 ⟨100, 100, 100⟩) ∧
    numResets (sessionEvents sinFn t0 times) = 1 ∧
    numStorageLoads (sessionEvents sinFn t0 times) = 0 := by
  obtain ⟨h1, h2⟩ := run_no_reset_no_storage sinFn times (mainInit t0)
  refine ⟨rfl, ?_, ?_⟩
  · show numResets (Event.resetCall 400000 initBoxSize :: _) = 1
    simp [numResets, h1]
  · show numStorageLoads (Event.resetCall 400000 initBoxSize :: _) = 0
    simp [numStorageLoads, h2]
